import Mathlib

/-!
Shallow embedding of the intraday candlestick widget
(`src/widgets/symbol-intraday-candlestick-widget.tsx`) of the
mcp-app-tase-end-of-day repository, together with proofs of the
specification's claims about it.

Conventions of the embedding:
* JS numbers holding prices/volumes are modelled as exact rationals (ℚ);
  unix timestamps (seconds since epoch, always nonnegative here) as ℕ.
* `string | null` fields are `Option String`; JS falsiness of a string is
  `none` or the empty string.
* `new Date(...)` on an ISO `YYYY-MM-DDTHH:MM:SS` string is modelled as a
  UTC civil-date-to-epoch conversion returning `none` exactly when the
  string is malformed (JS `isNaN(dt.getTime())`).
* The imperative aggregation loop (an array built by `push`) is rendered
  as a recursion that emits candles in the same order.
-/

namespace TaseIntraday

/-- The `IntradayTimeframe` union type `"1m" | "3m" | "5m" | "10m" | "30m" | "1h"`. -/
inductive IntradayTimeframe
  | tf1m
  | tf3m
  | tf5m
  | tf10m
  | tf30m
  | tf1h
deriving DecidableEq, Repr

/-- `TIMEFRAME_MINUTES` table (widget lines 48-55). -/
def TIMEFRAME_MINUTES : IntradayTimeframe → Nat
  | .tf1m => 1
  | .tf3m => 3
  | .tf5m => 5
  | .tf10m => 10
  | .tf30m => 30
  | .tf1h => 60

/-- The raw record shape `IntradayItem` (widget lines 25-35).  `date` is typed
`string` in TS and `lastSaleTime` is `string | null`; at runtime both come
from JSON and the code guards both with falsiness checks, so both are
modelled as `Option String` (with `some ""` for the falsy empty string). -/
structure IntradayItem where
  date : Option String
  lastSaleTime : Option String
  securityId : Int
  securityLastPrice : Option ℚ
  securityPercentageChange : Option ℚ
  lastSellVolume : Option ℚ
  securityDailyAggVolume : Option ℚ
  securityDailyAggValue : Option ℚ
  securityDailyNumTrades : Option ℚ
deriving DecidableEq, Repr

-- ── Date/time parsing (model of the `new Date` ISO path) ──

/-- Value of a list of decimal digit characters. -/
def digitsToNat (cs : List Char) : Nat :=
  cs.foldl (fun n c => n * 10 + (c.toNat - 48)) 0

/-- Gregorian leap-year rule. -/
def isLeapYear (y : Nat) : Bool :=
  (y % 4 == 0 && y % 100 != 0) || y % 400 == 0

/-- Days in a month of the proleptic Gregorian calendar. -/
def daysInMonth (y m : Nat) : Nat :=
  if m = 2 then (if isLeapYear y then 29 else 28)
  else if m = 4 ∨ m = 6 ∨ m = 9 ∨ m = 11 then 30
  else 31

/-- Days from 1970-01-01 to January 1 of year `y` (for `y ≥ 1970`). -/
def daysBeforeYear (y : Nat) : Nat :=
  (List.range (y - 1970)).foldl
    (fun acc i => acc + (if isLeapYear (1970 + i) then 366 else 365)) 0

/-- Days from January 1 to the first of month `m` within year `y`. -/
def daysBeforeMonth (y m : Nat) : Nat :=
  (List.range (m - 1)).foldl (fun acc i => acc + daysInMonth y (i + 1)) 0

/-- Epoch day number of the civil date `y-m-d` (UTC). -/
def civilToEpochDays (y m d : Nat) : Nat :=
  daysBeforeYear y + daysBeforeMonth y m + (d - 1)

/-- Parse `YYYY-MM-DD` character lists, validating digit shape and ranges
(as the JS `Date` ISO parser rejects out-of-range components). -/
def parseDateChars (cs : List Char) : Option (Nat × Nat × Nat) :=
  match cs with
  | [y1, y2, y3, y4, '-', m1, m2, '-', d1, d2] =>
    if ([y1, y2, y3, y4, m1, m2, d1, d2].all Char.isDigit) then
      let y := digitsToNat [y1, y2, y3, y4]
      let m := digitsToNat [m1, m2]
      let d := digitsToNat [d1, d2]
      if 1970 ≤ y ∧ 1 ≤ m ∧ m ≤ 12 ∧ 1 ≤ d ∧ d ≤ daysInMonth y m then
        some (y, m, d)
      else none
    else none
  | _ => none

/-- Parse `HH:MM:SS` (or `HH:MM`) character lists into seconds after
midnight, validating digit shape and ranges. -/
def parseTimeChars (cs : List Char) : Option Nat :=
  match cs with
  | [h1, h2, ':', n1, n2, ':', s1, s2] =>
    if ([h1, h2, n1, n2, s1, s2].all Char.isDigit) then
      let h := digitsToNat [h1, h2]
      let n := digitsToNat [n1, n2]
      let s := digitsToNat [s1, s2]
      if h ≤ 23 ∧ n ≤ 59 ∧ s ≤ 59 then some (h * 3600 + n * 60 + s) else none
    else none
  | [h1, h2, ':', n1, n2] =>
    if ([h1, h2, n1, n2].all Char.isDigit) then
      let h := digitsToNat [h1, h2]
      let n := digitsToNat [n1, n2]
      if h ≤ 23 ∧ n ≤ 59 then some (h * 3600 + n * 60) else none
    else none
  | _ => none

/-- `parseIntradayTime` (widget lines 110-117): reject when `lastSaleTime`
or `date` is JS-falsy (null or empty), take the date part before `"T"`
(`item.date.split("T")[0]`), combine with the time-of-day, and return the
unix timestamp in whole seconds; `none` models the `isNaN` invalid-date
rejection. -/
def parseIntradayTime (item : IntradayItem) : Option Nat :=
  match item.lastSaleTime, item.date with
  | some t, some d =>
    if t = "" ∨ d = "" then none
    else
      match parseDateChars (d.toList.takeWhile (fun c => c ≠ 'T')),
            parseTimeChars t.toList with
      | some (y, m, dd), some secs =>
        some (civilToEpochDays y m dd * 86400 + secs)
      | _, _ => none
  | _, _ => none

-- ── Normalization (the `valid` pipeline inside aggregateCandles) ──

/-- A normalized tick `{ts, price, volume}` (the elements of `valid`,
widget lines 124-130). -/
structure ValidTick where
  ts : Nat
  price : ℚ
  volume : ℚ
deriving DecidableEq, Repr

/-- The body of the `.map`: keep the item iff its time parses and its
price is non-null; a null `lastSellVolume` becomes `0` (`?? 0`). -/
def toValidTick (item : IntradayItem) : Option ValidTick :=
  match parseIntradayTime item, item.securityLastPrice with
  | some ts, some p => some ⟨ts, p, item.lastSellVolume.getD 0⟩
  | _, _ => none

/-- The ordering of the sort `(a, b) => a.ts - b.ts` (ascending by time). -/
def tickLE (a b : ValidTick) : Prop :=
  a.ts ≤ b.ts

instance : DecidableRel tickLE :=
  fun a b => inferInstanceAs (Decidable (a.ts ≤ b.ts))

instance : IsTotal ValidTick tickLE :=
  ⟨fun a b => Nat.le_total a.ts b.ts⟩

instance : IsTrans ValidTick tickLE :=
  ⟨fun _ _ _ h h' => Nat.le_trans h h'⟩

/-- `valid` (widget lines 124-130): map, filter out nulls, then sort
ascending by timestamp; JS `Array.prototype.sort` is stable (ES2019), so
it is modelled by a stable sort (`List.insertionSort`). -/
def validTicks (items : List IntradayItem) : List ValidTick :=
  (items.filterMap toValidTick).insertionSort tickLE

-- ── Aggregation ──

/-- `AggregatedCandle` (widget lines 64-71). -/
structure AggregatedCandle where
  time : Nat
  «open» : ℚ
  high : ℚ
  low : ℚ
  close : ℚ
  volume : ℚ
deriving DecidableEq, Repr

/-- `Math.floor(ts / bucketSeconds) * bucketSeconds` on a nonnegative
timestamp is ℕ floor-division. -/
def bucketStartOf (bucketSeconds ts : Nat) : Nat :=
  ts / bucketSeconds * bucketSeconds

/-- Opening a fresh accumulator from a tick: `open = high = low = close =
price`, `volume = tick.volume`, bucket-aligned start. -/
def seedCandle (bucketSeconds : Nat) (t : ValidTick) : AggregatedCandle :=
  ⟨bucketStartOf bucketSeconds t.ts, t.price, t.price, t.price, t.price, t.volume⟩

/-- Absorbing a same-bucket tick (widget lines 155-158). -/
def absorbTick (c : AggregatedCandle) (t : ValidTick) : AggregatedCandle :=
  { c with
    high := max c.high t.price
    low := min c.low t.price
    close := t.price
    volume := c.volume + t.volume }

/-- The loop of widget lines 142-162, rendered recursively: candles are
pushed (emitted) in loop order, and the final accumulator is pushed after
the loop. -/
def aggRun (bucketSeconds : Nat) (acc : AggregatedCandle) :
    List ValidTick → List AggregatedCandle
  | [] => [acc]
  | tick :: rest =>
    let bucket := bucketStartOf bucketSeconds tick.ts
    if bucket ≠ acc.time then
      acc :: aggRun bucketSeconds (seedCandle bucketSeconds tick) rest
    else
      aggRun bucketSeconds (absorbTick acc tick) rest

/-- The aggregation core on an already-normalized tick list (widget lines
132-164): empty input gives `[]`, otherwise seed from the first tick and
run the loop over the rest. -/
def aggregateSortedTicks (bucketSeconds : Nat) :
    List ValidTick → List AggregatedCandle
  | [] => []
  | v0 :: rest => aggRun bucketSeconds (seedCandle bucketSeconds v0) rest

/-- `aggregateCandles` (widget lines 119-165). -/
def aggregateCandles (items : List IntradayItem)
    (timeframe : IntradayTimeframe) : List AggregatedCandle :=
  let minutes := TIMEFRAME_MINUTES timeframe
  let bucketSeconds := minutes * 60
  aggregateSortedTicks bucketSeconds (validTicks items)

-- ── Specification-side aggregation algorithm (for the refinement claim) ──

/-- One step of the streaming accumulator algorithm exactly as the spec
words it (spec section 4.2): same bucket ⇒ `high = max(high, price)`,
`low = min(low, price)`, `close = price`, `volume += tick.volume`;
new bucket ⇒ emit (append) the accumulator and reseed
`open = high = low = close = price`, `volume = tick.volume`. -/
def specStep (bucketLength : Nat)
    (st : List AggregatedCandle × AggregatedCandle) (t : ValidTick) :
    List AggregatedCandle × AggregatedCandle :=
  if bucketStartOf bucketLength t.ts = st.2.time then
    (st.1,
     { time := st.2.time
       «open» := st.2.«open»
       high := max st.2.high t.price
       low := min st.2.low t.price
       close := t.price
       volume := st.2.volume + t.volume })
  else
    (st.1 ++ [st.2],
     { time := bucketStartOf bucketLength t.ts
       «open» := t.price
       high := t.price
       low := t.price
       close := t.price
       volume := t.volume })

/-- The candle sequence defined by the spec's streaming accumulator
algorithm: seed from the first tick, fold the rest through `specStep`,
and emit the final open accumulator. -/
def specAggregate (bucketLength : Nat) :
    List ValidTick → List AggregatedCandle
  | [] => []
  | t :: rest =>
    let r := rest.foldl (specStep bucketLength)
      ([],
       { time := bucketStartOf bucketLength t.ts
         «open» := t.price
         high := t.price
         low := t.price
         close := t.price
         volume := t.volume })
    r.1 ++ [r.2]

-- ── Example data (spec scenario 1, date 2026-03-01) ──

/-- Build an example raw record from date, time, price and volume. -/
def mkItem (d t : String) (p v : Option ℚ) : IntradayItem :=
  { date := some d
    lastSaleTime := some t
    securityId := 1
    securityLastPrice := p
    securityPercentageChange := none
    lastSellVolume := v
    securityDailyAggVolume := none
    securityDailyAggValue := none
    securityDailyNumTrades := none }

/-- Scenario-1 ticks: `(09:30:00, 100, 10)`, `(09:31:30, 101, 5)`,
`(09:35:00, 99, 7)` on 2026-03-01. -/
def exampleItems : List IntradayItem :=
  [mkItem "2026-03-01" "09:30:00" (some 100) (some 10),
   mkItem "2026-03-01" "09:31:30" (some 101) (some 5),
   mkItem "2026-03-01" "09:35:00" (some 99) (some 7)]

-- Batteries marks ℚ arithmetic `@[irreducible]`, which blocks `decide` on
-- concrete candles; restore the default reducibility for this development.
section RatReducible

attribute [local semireducible] Rat.add Rat.sub Rat.mul Rat.inv

-- ── Helper lemmas about the aggregation loop ──

theorem foldl_specStep_spec (b : Nat) :
    ∀ (ticks : List ValidTick) (emitted : List AggregatedCandle)
      (acc : AggregatedCandle),
      (ticks.foldl (specStep b) (emitted, acc)).1 ++
          [(ticks.foldl (specStep b) (emitted, acc)).2] =
        emitted ++ aggRun b acc ticks := by
  intro ticks
  induction ticks with
  | nil => intro emitted acc; simp [aggRun]
  | cons t rest ih =>
    intro emitted acc
    by_cases h : bucketStartOf b t.ts = acc.time
    · have hstep : specStep b (emitted, acc) t = (emitted, absorbTick acc t) := by
        simp [specStep, h, absorbTick]
      rw [List.foldl_cons, hstep, ih, aggRun, if_neg (by simp [h])]
    · have hstep : specStep b (emitted, acc) t =
          (emitted ++ [acc], seedCandle b t) := by
        simp [specStep, h, seedCandle]
      rw [List.foldl_cons, hstep, ih, aggRun, if_pos h, List.append_assoc,
        List.singleton_append]

theorem aggregateSortedTicks_eq_specAggregate (b : Nat)
    (ticks : List ValidTick) :
    aggregateSortedTicks b ticks = specAggregate b ticks := by
  cases ticks with
  | nil => rfl
  | cons t rest =>
    have h := foldl_specStep_spec b rest [] (seedCandle b t)
    simpa [aggregateSortedTicks, specAggregate, seedCandle] using h.symm

/-- C1: for every tick sequence and timeframe the code's single left-to-right
walk produces exactly the candle sequence of the spec's streaming accumulator
algorithm (first tick of a bucket seeds `open = high = low = close = price`
and `volume = tick.volume`; a later same-bucket tick maxes `high`, mins
`low`, sets `close`, adds `volume`; a new bucket emits and reseeds), and on
the scenario ticks `(09:30:00, 100, 10)`, `(09:31:30, 101, 5)`,
`(09:35:00, 99, 7)` at timeframe 5m it yields exactly the candles
`(09:30:00, 100, 101, 100, 101, 15)` and `(09:35:00, 99, 99, 99, 99, 7)`. -/
theorem claim_C1 :
    (∀ (tf : IntradayTimeframe) (ticks : List ValidTick),
        aggregateSortedTicks (TIMEFRAME_MINUTES tf * 60) ticks =
          specAggregate (TIMEFRAME_MINUTES tf * 60) ticks) ∧
    aggregateCandles exampleItems .tf5m =
      [⟨civilToEpochDays 2026 3 1 * 86400 + (9 * 3600 + 30 * 60),
        100, 101, 100, 101, 15⟩,
       ⟨civilToEpochDays 2026 3 1 * 86400 + (9 * 3600 + 35 * 60),
        99, 99, 99, 99, 7⟩] :=
  ⟨fun tf ticks => aggregateSortedTicks_eq_specAggregate _ ticks, by decide⟩

-- ── Invariant-preservation lemmas for the aggregation loop ──

theorem aggRun_forall (b : Nat) (P : AggregatedCandle → Prop)
    (habsorb : ∀ c t, P c → P (absorbTick c t))
    (hseed : ∀ t, P (seedCandle b t)) :
    ∀ (ticks : List ValidTick) (acc : AggregatedCandle), P acc →
      ∀ c ∈ aggRun b acc ticks, P c := by
  intro ticks
  induction ticks with
  | nil =>
    intro acc hacc c hc
    rw [aggRun, List.mem_singleton] at hc
    exact hc ▸ hacc
  | cons t rest ih =>
    intro acc hacc c hc
    rw [aggRun] at hc
    by_cases h : bucketStartOf b t.ts ≠ acc.time
    · rw [if_pos h] at hc
      rcases List.mem_cons.mp hc with h1 | h2
      · exact h1 ▸ hacc
      · exact ih _ (hseed t) _ h2
    · rw [if_neg h] at hc
      exact ih _ (habsorb _ _ hacc) _ hc

theorem bucketStartOf_mono (b : Nat) {t u : Nat} (h : t ≤ u) :
    bucketStartOf b t ≤ bucketStartOf b u :=
  Nat.mul_le_mul_right _ (Nat.div_le_div_right h)

theorem aggRun_strict_times (b : Nat) :
    ∀ (ticks : List ValidTick) (acc : AggregatedCandle),
      ticks.Pairwise tickLE →
      (∀ t ∈ ticks, acc.time ≤ bucketStartOf b t.ts) →
      (aggRun b acc ticks).Pairwise (fun x y => x.time < y.time) ∧
        ∀ c ∈ aggRun b acc ticks, acc.time ≤ c.time := by
  intro ticks
  induction ticks with
  | nil =>
    intro acc _ _
    rw [aggRun]
    refine ⟨List.pairwise_singleton _ _, ?_⟩
    intro c hc
    rw [List.mem_singleton] at hc
    exact hc ▸ Nat.le_refl _
  | cons t rest ih =>
    intro acc hsorted hbnd
    have hrest_sorted := hsorted.tail
    have ht_le : ∀ u ∈ rest, t.ts ≤ u.ts := by
      intro u hu
      exact List.rel_of_pairwise_cons hsorted hu
    by_cases h : bucketStartOf b t.ts ≠ acc.time
    · have hlt : acc.time < bucketStartOf b t.ts :=
        Nat.lt_of_le_of_ne (hbnd t (List.mem_cons_self t rest)) (Ne.symm h)
      have hseed_bnd : ∀ u ∈ rest,
          (seedCandle b t).time ≤ bucketStartOf b u.ts := by
        intro u hu
        exact bucketStartOf_mono b (ht_le u hu)
      obtain ⟨ihp, ihle⟩ := ih (seedCandle b t) hrest_sorted hseed_bnd
      constructor
      · rw [aggRun, if_pos h]
        refine List.pairwise_cons.mpr ⟨?_, ihp⟩
        intro c hc
        exact Nat.lt_of_lt_of_le hlt (ihle c hc)
      · rw [aggRun, if_pos h]
        intro c hc
        rcases List.mem_cons.mp hc with h1 | h2
        · exact h1 ▸ Nat.le_refl _
        · exact Nat.le_trans (Nat.le_of_lt hlt) (ihle c h2)
    · have habs_time : (absorbTick acc t).time = acc.time := rfl
      have habs_bnd : ∀ u ∈ rest,
          (absorbTick acc t).time ≤ bucketStartOf b u.ts := by
        intro u hu
        exact habs_time ▸ hbnd u (List.mem_cons_of_mem t hu)
      obtain ⟨ihp, ihle⟩ := ih (absorbTick acc t) hrest_sorted habs_bnd
      constructor
      · rw [aggRun, if_neg h]
        exact ihp
      · rw [aggRun, if_neg h]
        intro c hc
        exact habs_time ▸ ihle c hc

theorem validTicks_sorted (items : List IntradayItem) :
    (validTicks items).Pairwise tickLE :=
  List.sorted_insertionSort tickLE (items.filterMap toValidTick)

/-- C3: every candle produced by `aggregateCandles`, on any input and any
timeframe, satisfies the OHLC invariant
`low ≤ min(open, close)` and `high ≥ max(open, close)`. -/
theorem claim_C3 (items : List IntradayItem) (tf : IntradayTimeframe)
    (c : AggregatedCandle) (hc : c ∈ aggregateCandles items tf) :
    c.low ≤ min c.«open» c.close ∧ max c.«open» c.close ≤ c.high := by
  revert c hc
  unfold aggregateCandles
  cases hv : validTicks items with
  | nil => intro c hc; simp [aggregateSortedTicks] at hc
  | cons v rest =>
    intro c hc
    refine aggRun_forall _
      (fun c => c.low ≤ min c.«open» c.close ∧ max c.«open» c.close ≤ c.high)
      ?_ ?_ rest (seedCandle _ v) ?_ c hc
    · intro d t hd
      unfold absorbTick
      constructor
      · exact le_trans (min_le_min (le_trans hd.1 (min_le_left _ _)) (le_refl t.price))
          (le_refl _)
      · exact le_trans (le_refl _)
          (max_le_max (le_trans (le_max_left _ _) hd.2) (le_refl t.price))
    · intro t
      unfold seedCandle
      exact ⟨le_min (le_refl _) (le_refl _), max_le (le_refl _) (le_refl _)⟩
    · unfold seedCandle
      exact ⟨le_min (le_refl _) (le_refl _), max_le (le_refl _) (le_refl _)⟩

/-- Witness for C3 at the scenario input: the first 5-minute candle of the
example ticks satisfies the OHLC bounds. -/
theorem claim_C3_witness :
    (⟨1772357400, 100, 101, 100, 101, 15⟩ : AggregatedCandle) ∈
        aggregateCandles exampleItems .tf5m ∧
      (100 : ℚ) ≤ min 100 101 ∧ max (100 : ℚ) 101 ≤ 101 :=
  ⟨by decide, claim_C3 exampleItems .tf5m ⟨1772357400, 100, 101, 100, 101, 15⟩
    (by decide)⟩

theorem aggregateCandles_strict_times (items : List IntradayItem)
    (tf : IntradayTimeframe) :
    (aggregateCandles items tf).Pairwise (fun x y => x.time < y.time) := by
  unfold aggregateCandles
  cases hv : validTicks items with
  | nil => exact List.Pairwise.nil
  | cons v rest =>
    have hsorted := validTicks_sorted items
    rw [hv] at hsorted
    have hbnd : ∀ t ∈ rest,
        (seedCandle (TIMEFRAME_MINUTES tf * 60) v).time ≤
          bucketStartOf (TIMEFRAME_MINUTES tf * 60) t.ts := by
      intro t ht
      exact bucketStartOf_mono _ (List.rel_of_pairwise_cons hsorted ht)
    exact (aggRun_strict_times _ rest _ hsorted.tail hbnd).1

/-- C4: on any input and any timeframe the produced candle sequence is
strictly increasing by bucket-start time, hence has no duplicate starts. -/
theorem claim_C4 (items : List IntradayItem) (tf : IntradayTimeframe) :
    (aggregateCandles items tf).Pairwise (fun x y => x.time < y.time) ∧
      ((aggregateCandles items tf).map (fun c => c.time)).Nodup := by
  have hp := aggregateCandles_strict_times items tf
  refine ⟨hp, ?_⟩
  exact List.pairwise_map.mpr (hp.imp fun h => Nat.ne_of_lt h)

/-- C9: the timeframe table maps `1m, 3m, 5m, 10m, 30m, 1h` to bucket
lengths `60, 180, 300, 600, 1800, 3600` seconds, the bucket of a timestamp
is `floor(t / len) * len`, and every produced candle's start time is an
exact multiple of the selected timeframe's bucket length. -/
theorem claim_C9 :
    (TIMEFRAME_MINUTES .tf1m * 60 = 60 ∧ TIMEFRAME_MINUTES .tf3m * 60 = 180 ∧
     TIMEFRAME_MINUTES .tf5m * 60 = 300 ∧ TIMEFRAME_MINUTES .tf10m * 60 = 600 ∧
     TIMEFRAME_MINUTES .tf30m * 60 = 1800 ∧ TIMEFRAME_MINUTES .tf1h * 60 = 3600) ∧
    (∀ (len ts : Nat), bucketStartOf len ts = ts / len * len) ∧
    ∀ (items : List IntradayItem) (tf : IntradayTimeframe)
      (c : AggregatedCandle), c ∈ aggregateCandles items tf →
        (TIMEFRAME_MINUTES tf * 60) ∣ c.time := by
  refine ⟨by decide, fun len ts => rfl, ?_⟩
  intro items tf c hc
  revert c hc
  unfold aggregateCandles
  cases hv : validTicks items with
  | nil => intro c hc; simp [aggregateSortedTicks] at hc
  | cons v rest =>
    intro c hc
    refine aggRun_forall _ (fun c => (TIMEFRAME_MINUTES tf * 60) ∣ c.time)
      ?_ ?_ rest (seedCandle _ v) ?_ c hc
    · intro d t hd
      exact hd
    · intro t
      exact Dvd.intro_left _ rfl
    · exact Dvd.intro_left _ rfl

/-- Witness for C9: the first example candle's start is a multiple of 300. -/
theorem claim_C9_witness :
    (⟨1772357400, 100, 101, 100, 101, 15⟩ : AggregatedCandle) ∈
        aggregateCandles exampleItems .tf5m ∧
      (TIMEFRAME_MINUTES .tf5m * 60) ∣ 1772357400 :=
  ⟨by decide, claim_C9.2.2 exampleItems .tf5m
    ⟨1772357400, 100, 101, 100, 101, 15⟩ (by decide)⟩

-- ── Normalization claims ──

theorem filter_insertionSort_stable (p : ValidTick → Bool)
    (hp : ∀ a b, p a = true → p b = true → tickLE a b) (l : List ValidTick) :
    (l.insertionSort tickLE).filter p = l.filter p := by
  have hpair : (l.filter p).Pairwise tickLE := by
    refine List.pairwise_of_forall_mem_list ?_
    intro a ha b hb
    exact hp a b (List.mem_filter.mp ha).2 (List.mem_filter.mp hb).2
  have hsub : List.Sublist (l.filter p) (l.insertionSort tickLE) :=
    List.sublist_insertionSort hpair (List.filter_sublist l)
  have hsub2 : List.Sublist ((l.filter p).filter p)
      ((l.insertionSort tickLE).filter p) :=
    hsub.filter p
  have hidem : (l.filter p).filter p = l.filter p := by
    rw [List.filter_filter]
    exact List.filter_congr fun a _ => by cases p a <;> rfl
  rw [hidem] at hsub2
  have hperm : List.Perm ((l.insertionSort tickLE).filter p) (l.filter p) :=
    (List.perm_insertionSort tickLE l).filter p
  exact (hsub2.eq_of_length hperm.length_eq.symm).symm

/-- C7: normalization silently drops exactly the records with a falsy
time-of-day or date, a null price, or an unparsable date+time; it
stable-sorts the survivors ascending by timestamp (records with equal
timestamps keep their input order); all-invalid (in particular empty)
input yields `[]`, not an error (the pipeline is a total function). -/
theorem claim_C7 :
    (∀ item : IntradayItem, toValidTick item = none ↔
        (parseIntradayTime item = none ∨ item.securityLastPrice = none)) ∧
    (∀ item : IntradayItem,
        (item.lastSaleTime = none ∨ item.lastSaleTime = some "" ∨
         item.date = none ∨ item.date = some "") →
        parseIntradayTime item = none) ∧
    (∀ items : List IntradayItem,
        (validTicks items).Pairwise fun a b => a.ts ≤ b.ts) ∧
    (∀ (items : List IntradayItem) (k : Nat),
        (validTicks items).filter (fun t => t.ts == k) =
          (items.filterMap toValidTick).filter (fun t => t.ts == k)) ∧
    (∀ items : List IntradayItem,
        (∀ i ∈ items, toValidTick i = none) → validTicks items = []) := by
  refine ⟨?_, ?_, ?_, ?_, ?_⟩
  · intro item
    unfold toValidTick
    cases hpt : parseIntradayTime item <;>
      cases hp : item.securityLastPrice <;> simp
  · intro item h
    rcases h with h | h | h | h <;>
      cases hs : item.lastSaleTime <;> cases hd : item.date <;>
        simp_all [parseIntradayTime]
  · intro items
    exact validTicks_sorted items
  · intro items k
    refine filter_insertionSort_stable _ ?_ _
    intro a b ha hb
    have ha' : a.ts = k := by simpa using ha
    have hb' : b.ts = k := by simpa using hb
    show a.ts ≤ b.ts
    rw [ha', hb']
  · intro items h
    unfold validTicks
    rw [List.filterMap_eq_nil_iff.mpr h]
    rfl

/-- An all-fields-missing raw record, dropped by normalization. -/
def invalidItem : IntradayItem :=
  { date := none
    lastSaleTime := none
    securityId := 0
    securityLastPrice := none
    securityPercentageChange := none
    lastSellVolume := none
    securityDailyAggVolume := none
    securityDailyAggValue := none
    securityDailyNumTrades := none }

/-- Witness for C7: a one-record all-invalid input normalizes to `[]`. -/
theorem claim_C7_witness :
    (∀ i ∈ [invalidItem], toValidTick i = none) ∧
      validTicks [invalidItem] = [] :=
  ⟨by decide, claim_C7.2.2.2.2 [invalidItem] (by decide)⟩

/-- Ticks on 2026-03-01 where the 09:31:00 record has price 105 but a null
volume: it must still shape the candle's high/close. -/
def exampleItemsVolNull : List IntradayItem :=
  [mkItem "2026-03-01" "09:30:00" (some 100) (some 10),
   mkItem "2026-03-01" "09:31:00" (some 105) none]

/-- C10: a record with parsable date/time and non-null price but null
volume is kept as a tick with volume 0; concretely, such a tick still
drives high/close of its candle while adding nothing to its volume. -/
theorem claim_C10 :
    (∀ (item : IntradayItem) (ts : Nat) (p : ℚ),
        parseIntradayTime item = some ts → item.securityLastPrice = some p →
        item.lastSellVolume = none → toValidTick item = some ⟨ts, p, 0⟩) ∧
    aggregateCandles exampleItemsVolNull .tf5m =
      [⟨civilToEpochDays 2026 3 1 * 86400 + (9 * 3600 + 30 * 60),
        100, 105, 100, 105, 10⟩] := by
  constructor
  · intro item ts p hts hp hv
    unfold toValidTick
    rw [hts, hp, hv]
    rfl
  · decide

/-- Witness for C10: the null-volume example record parses and is kept as
a tick with volume 0. -/
theorem claim_C10_witness :
    parseIntradayTime (mkItem "2026-03-01" "09:31:00" (some 105) none) =
        some 1772357460 ∧
      toValidTick (mkItem "2026-03-01" "09:31:00" (some 105) none) =
        some ⟨1772357460, 105, 0⟩ :=
  ⟨by decide,
   claim_C10.1 (mkItem "2026-03-01" "09:31:00" (some 105) none)
     1772357460 105 (by decide) rfl rfl⟩

-- ── Widget refresh-lifecycle state machine ──
-- The React component state and its event handlers
-- (widget lines 184-261 and 322-434), embedded as an explicit
-- event-driven transition function.  `inFlight` and `requestLog` are
-- instrumentation fields recording the outstanding `handleRefresh`
-- requests and every issued `callServerTool` request's argument.

/-- `IntradayCandlestickWidgetData` (widget lines 57-62). -/
structure IntradayCandlestickWidgetData where
  symbol : String
  securityId : Int
  count : Int
  items : List IntradayItem
deriving DecidableEq, Repr

/-- `LegendValues` (widget lines 73-80). -/
structure LegendValues where
  «open» : ℚ
  high : ℚ
  low : ℚ
  close : ℚ
  change : Option ℚ
  volume : ℚ
deriving DecidableEq, Repr

/-- The legend summary stored per candle by the `legendMap` memo (widget
lines 315-318): `change = (close - open) / open * 100` when `open ≠ 0`,
else null. -/
def legendOfCandle (c : AggregatedCandle) : LegendValues :=
  { «open» := c.«open»
    high := c.high
    low := c.low
    close := c.close
    change := if c.«open» ≠ 0 then some ((c.close - c.«open») / c.«open» * 100)
      else none
    volume := c.volume }

/-- The `legendMap` contents: one `(time, summary)` entry per candle, in
candle order (widget lines 311-320). -/
def buildLegendMap (candles : List AggregatedCandle) :
    List (Nat × LegendValues) :=
  candles.map fun c => (c.time, legendOfCandle c)

/-- `Map.get` on the legend map.  Candle times are unique (strictly
increasing), so first-match lookup coincides with the JS `Map`. -/
def legendGet (m : List (Nat × LegendValues)) (t : Nat) : Option LegendValues :=
  (m.find? fun e => e.1 == t).map fun e => e.2

/-- Argument shape of an issued `callServerTool` data request. -/
inductive ReqArg
  | noArgs
  | symbolArg (s : String)
  | idArg (n : Int)
deriving DecidableEq, Repr

/-- Outcome of an awaited `handleRefresh` request: success with a parsed
payload, success without a parsable payload, or a thrown error. -/
inductive RefreshOutcome
  | ok (d : IntradayCandlestickWidgetData)
  | noData
  | threw
deriving DecidableEq, Repr

/-- The widget's mutable React state, plus ghost instrumentation. -/
structure WState where
  data : Option IntradayCandlestickWidgetData
  needsAutoFetch : Bool
  isRefreshing : Bool
  refreshError : Option String
  legendValues : Option LegendValues
  selectedTimeframe : IntradayTimeframe
  symbolInput : String
  inFlight : Nat
  requestLog : List ReqArg
deriving DecidableEq, Repr

/-- Initial state: `useState` defaults (`data = null`,
`needsAutoFetch = false`, `isRefreshing = false`, `refreshError = null`,
`legendValues = null`, timeframe `"5m"`, empty symbol input). -/
def initialWState : WState :=
  { data := none
    needsAutoFetch := false
    isRefreshing := false
    refreshError := none
    legendValues := none
    selectedTimeframe := .tf5m
    symbolInput := ""
    inFlight := 0
    requestLog := [] }

/-- The candles derived from current state by the `useMemo` at widget
lines 288-308 (recomputed from `(data.items, selectedTimeframe)`). -/
def candlesOf (s : WState) : List AggregatedCandle :=
  match s.data with
  | some d =>
    if d.items = [] then [] else aggregateCandles d.items s.selectedTimeframe
  | none => []

/-- The legend map derived by the `useMemo` at widget lines 311-320. -/
def legendMapOf (s : WState) : List (Nat × LegendValues) :=
  match s.data with
  | some d => buildLegendMap (aggregateCandles d.items s.selectedTimeframe)
  | none => []

/-- Externally delivered events driving the widget. -/
inductive WEvent
  | hostResult (r : Option IntradayCandlestickWidgetData)
  | autoFetchEffect
  | fallbackResolve (r : Option IntradayCandlestickWidgetData)
  | setSymbolInput (s : String)
  | clickRefresh
  | enterKeyRefresh
  | timerFire
  | refreshResolve (o : RefreshOutcome)
  | selectTimeframe (tf : IntradayTimeframe)
  | defaultLegendEffect
  | crosshairMove (t : Option Nat)
deriving DecidableEq, Repr

/-- JS whitespace (restricted to the common characters). -/
def jsWhitespace (c : Char) : Bool :=
  c == ' ' || c == '\t' || c == '\n' || c == '\r'

/-- `String.prototype.trim`, modelled over the character list. -/
def jsTrim (s : String) : String :=
  ⟨((s.toList.dropWhile jsWhitespace).reverse.dropWhile jsWhitespace).reverse⟩

/-- The synchronous prefix of `handleRefresh` (widget lines 348-357):
set `isRefreshing`, clear the error, and issue the request.  Note: there
is no check of `isRefreshing` here. -/
def startRefresh (s : WState) (arg : ReqArg) : WState :=
  { s with
    isRefreshing := true
    refreshError := none
    inFlight := s.inFlight + 1
    requestLog := s.requestLog ++ [arg] }

/-- `args.securityIdOrSymbol` is only set when truthy, so a zero id sends
no arguments (widget lines 351-352). -/
def refreshArgOfId (n : Int) : ReqArg :=
  if n = 0 then ReqArg.noArgs else ReqArg.idArg n

/-- Crosshair fallback to the last candle (widget lines 340-344). -/
def crosshairFallback (s : WState) : WState :=
  match (candlesOf s).getLast? with
  | some lastC =>
    match legendGet (legendMapOf s) lastC.time with
    | some v => { s with legendValues := some v }
    | none => s
  | none => s

/-- One event-driven transition of the widget. -/
def step (s : WState) : WEvent → WState
  | .hostResult (some d) => { s with data := some d }
  | .hostResult none => { s with needsAutoFetch := true }
  | .autoFetchEffect =>
    if s.needsAutoFetch then
      { s with
        needsAutoFetch := false
        requestLog := s.requestLog ++ [ReqArg.noArgs] }
    else s
  | .fallbackResolve (some d) => { s with data := some d }
  | .fallbackResolve none => s
  | .setSymbolInput str => { s with symbolInput := str }
  | .clickRefresh =>
    if s.isRefreshing then s
    else if jsTrim s.symbolInput ≠ "" then
      startRefresh s (.symbolArg (jsTrim s.symbolInput))
    else s
  | .enterKeyRefresh =>
    if jsTrim s.symbolInput ≠ "" then
      startRefresh s (.symbolArg (jsTrim s.symbolInput))
    else s
  | .timerFire =>
    match s.data with
    | some d =>
      if d.symbol ≠ "" then startRefresh s (refreshArgOfId d.securityId)
      else s
    | none => s
  | .refreshResolve (.ok d) =>
    { s with
      data := some d
      legendValues := none
      isRefreshing := false
      inFlight := s.inFlight - 1 }
  | .refreshResolve .noData =>
    { s with
      refreshError := some "No data found"
      isRefreshing := false
      inFlight := s.inFlight - 1 }
  | .refreshResolve .threw =>
    { s with
      refreshError := some "Failed to fetch data"
      isRefreshing := false
      inFlight := s.inFlight - 1 }
  | .selectTimeframe tf =>
    if s.isRefreshing then s
    else { s with selectedTimeframe := tf, legendValues := none }
  | .defaultLegendEffect =>
    match s.legendValues, (candlesOf s).getLast? with
    | none, some lastC =>
      match legendGet (legendMapOf s) lastC.time with
      | some v => { s with legendValues := some v }
      | none => s
    | _, _ => s
  | .crosshairMove t =>
    match t with
    | some time =>
      if time ≠ 0 then
        match legendGet (legendMapOf s) time with
        | some v => { s with legendValues := some v }
        | none => crosshairFallback s
      else crosshairFallback s
    | none => crosshairFallback s

/-- Run a sequence of events from a state. -/
def run (s : WState) (evs : List WEvent) : WState :=
  evs.foldl step s

/-- The render result of the main conditional (widget lines 459-541). -/
inductive ViewBody
  | waiting
  | noIntraday
  | chart
  | nothing
deriving DecidableEq, Repr

/-- `!data && !refreshError ? waiting : data && empty ? noIntraday :
data ? chart : null`. -/
def viewBody (s : WState) : ViewBody :=
  match s.data with
  | none => if s.refreshError = none then .waiting else .nothing
  | some _ => if candlesOf s = [] then .noIntraday else .chart

-- ── Lifecycle helper lemmas ──

theorem candlesOf_strict_times (s : WState) :
    (candlesOf s).Pairwise fun x y => x.time < y.time := by
  cases hd : s.data with
  | none => simp [candlesOf, hd]
  | some d =>
    by_cases h : d.items = []
    · simp [candlesOf, hd, h]
    · simpa [candlesOf, hd, h] using
        aggregateCandles_strict_times d.items s.selectedTimeframe

theorem legendMapOf_eq (s : WState) :
    legendMapOf s = buildLegendMap (candlesOf s) := by
  cases hd : s.data with
  | none => simp [legendMapOf, candlesOf, hd, buildLegendMap]
  | some d =>
    by_cases h : d.items = []
    · simp [legendMapOf, candlesOf, hd, h, aggregateCandles, validTicks,
        aggregateSortedTicks, buildLegendMap]
    · simp [legendMapOf, candlesOf, hd, h]

theorem legendGet_getLast :
    ∀ (candles : List AggregatedCandle),
      candles.Pairwise (fun x y => x.time < y.time) →
      ∀ c, candles.getLast? = some c →
        legendGet (buildLegendMap candles) c.time = some (legendOfCandle c)
  | [], _, c, hc => by simp at hc
  | [a], _, c, hc => by
    simp only [List.getLast?_singleton, Option.some.injEq] at hc
    subst hc
    simp [legendGet, buildLegendMap]
  | a :: b :: rest, hp, c, hc => by
    rw [List.getLast?_cons_cons] at hc
    have hmem : c ∈ b :: rest := List.mem_of_getLast?_eq_some hc
    have hlt : a.time < c.time := List.rel_of_pairwise_cons hp hmem
    have ih := legendGet_getLast (b :: rest) hp.tail c hc
    unfold legendGet buildLegendMap at ih ⊢
    rw [List.map_cons, List.find?_cons_of_neg]
    · exact ih
    · simp only [beq_iff_eq]
      exact Nat.ne_of_lt hlt

-- ── Lifecycle example data and traces ──

/-- Example payload used in lifecycle traces. -/
def exData : IntradayCandlestickWidgetData :=
  { symbol := "TEVA", securityId := 629014, count := 3, items := exampleItems }

/-- A trace in which a manual refresh is started and the periodic timer
fires while that request is still in flight. -/
def doubleFlightTrace : List WEvent :=
  [.hostResult (some exData), .setSymbolInput "TEVA", .clickRefresh,
   .timerFire]

/-- C2 counterexample: the claim that at most one data request is ever in
flight fails — after a manual refresh, the 30-minute timer fires while it
is still pending and `handleRefresh` starts a second request (it contains
no single-flight check). -/
theorem claim_C2_counterexample :
    ¬ ∀ evs : List WEvent, (run initialWState evs).inFlight ≤ 1 :=
  fun h => absurd (h doubleFlightTrace) (by decide)

/-- C2 amended: a *button-initiated* manual refresh during an in-flight
refresh is rejected outright (the button is disabled, so the click changes
nothing), but `handleRefresh` itself has no single-flight guard: the
periodic auto-refresh (and the Enter-key submit path) can start a second
request while one is outstanding, as the concrete trace shows. -/
theorem claim_C2_amended :
    (∀ s : WState, s.isRefreshing = true → step s .clickRefresh = s) ∧
    (run initialWState doubleFlightTrace).inFlight = 2 ∧
    (run initialWState doubleFlightTrace).requestLog =
      [ReqArg.symbolArg "TEVA", ReqArg.idArg 629014] := by
  refine ⟨?_, by decide, by decide⟩
  intro s h
  simp [step, h]

/-- Witness for the amended C2: in a concrete state reached by an
Enter-key refresh, a button click is rejected and changes nothing. -/
theorem claim_C2_amended_witness :
    (run initialWState [.setSymbolInput "TEVA", .enterKeyRefresh]).isRefreshing
        = true ∧
      step (run initialWState [.setSymbolInput "TEVA", .enterKeyRefresh])
          .clickRefresh =
        run initialWState [.setSymbolInput "TEVA", .enterKeyRefresh] :=
  ⟨by decide,
   claim_C2_amended.1 (run initialWState [.setSymbolInput "TEVA", .enterKeyRefresh])
     (by decide)⟩

/-- Trace: unparseable initial result, fallback effect runs, fallback
fails (or returns an unparseable payload), effect fires again. -/
def fallbackFailTrace : List WEvent :=
  [.hostResult none, .autoFetchEffect, .fallbackResolve none,
   .autoFetchEffect]

/-- C5: the fallback effect issues a request (with no arguments) only when
the one-shot flag is set, and clears the flag; a failed or unparseable
fallback changes nothing; hence after an unparseable host result exactly
one fallback request is ever issued and the widget stays in
WaitingForData (`data = none`) with no user-visible error. -/
theorem claim_C5 :
    (∀ s : WState, s.needsAutoFetch = false → step s .autoFetchEffect = s) ∧
    (∀ s : WState, s.needsAutoFetch = true →
        step s .autoFetchEffect =
          { s with
            needsAutoFetch := false
            requestLog := s.requestLog ++ [ReqArg.noArgs] }) ∧
    (∀ s : WState, step s (.fallbackResolve none) = s) ∧
    (run initialWState fallbackFailTrace).requestLog = [ReqArg.noArgs] ∧
    (run initialWState fallbackFailTrace).data = none ∧
    (run initialWState fallbackFailTrace).refreshError = none := by
  refine ⟨?_, ?_, fun s => rfl, by decide, by decide, by decide⟩
  · intro s h
    simp [step, h]
  · intro s h
    simp [step, h]

/-- Witness for C5: with the flag clear (initial state) the effect issues
no request. -/
theorem claim_C5_witness :
    initialWState.needsAutoFetch = false ∧
      step initialWState .autoFetchEffect = initialWState :=
  ⟨rfl, claim_C5.1 initialWState rfl⟩

/-- C6: a failing refresh (request threw, or no parsable payload) sets the
error message while leaving the raw data, derived candles, legend map and
active legend selection unchanged; with data loaded the rendered body is
unchanged (the chart stays up); and a subsequent successful manual refresh
clears the error and replaces the data. -/
theorem claim_C6 :
    (∀ s : WState,
        (step s (.refreshResolve .noData)).refreshError =
            some "No data found" ∧
          (step s (.refreshResolve .noData)).data = s.data ∧
          candlesOf (step s (.refreshResolve .noData)) = candlesOf s ∧
          legendMapOf (step s (.refreshResolve .noData)) = legendMapOf s ∧
          (step s (.refreshResolve .noData)).legendValues = s.legendValues) ∧
    (∀ s : WState,
        (step s (.refreshResolve .threw)).refreshError =
            some "Failed to fetch data" ∧
          (step s (.refreshResolve .threw)).data = s.data ∧
          candlesOf (step s (.refreshResolve .threw)) = candlesOf s ∧
          legendMapOf (step s (.refreshResolve .threw)) = legendMapOf s ∧
          (step s (.refreshResolve .threw)).legendValues = s.legendValues) ∧
    (∀ s : WState, s.data.isSome = true →
        viewBody (step s (.refreshResolve .threw)) = viewBody s ∧
          viewBody (step s (.refreshResolve .noData)) = viewBody s) ∧
    (∀ (s : WState) (d : IntradayCandlestickWidgetData),
        s.isRefreshing = false → jsTrim s.symbolInput ≠ "" →
          (run s [.clickRefresh, .refreshResolve (.ok d)]).refreshError =
              none ∧
            (run s [.clickRefresh, .refreshResolve (.ok d)]).data = some d) := by
  refine ⟨fun s => ⟨rfl, rfl, rfl, rfl, rfl⟩,
    fun s => ⟨rfl, rfl, rfl, rfl, rfl⟩, ?_, ?_⟩
  · intro s hs
    obtain ⟨d, hd⟩ := Option.isSome_iff_exists.mp hs
    constructor <;> simp [viewBody, candlesOf, step, hd]
  · intro s d h1 h2
    constructor <;> simp [run, step, h1, h2, startRefresh]

/-- A state in the Error condition, reached by a thrown manual refresh. -/
def errorStateExample : WState :=
  run initialWState
    [.hostResult (some exData), .setSymbolInput "TEVA", .clickRefresh,
     .refreshResolve .threw]

/-- Witness for C6: the concrete error state still holds the data, and a
successful manual refresh recovers from the error. -/
theorem claim_C6_witness :
    errorStateExample.refreshError = some "Failed to fetch data" ∧
      errorStateExample.data = some exData ∧
      errorStateExample.isRefreshing = false ∧
      (run errorStateExample
          [.clickRefresh, .refreshResolve (.ok exData)]).refreshError =
        none ∧
      (run errorStateExample
          [.clickRefresh, .refreshResolve (.ok exData)]).data = some exData := by
  refine ⟨by decide, by decide, by decide, ?_, ?_⟩
  · exact (claim_C6.2.2.2 errorStateExample exData (by decide) (by decide)).1
  · exact (claim_C6.2.2.2 errorStateExample exData (by decide) (by decide)).2

/-- C8: selecting a new timeframe (possible only while not refreshing, the
buttons being disabled otherwise) keeps the raw data, sets the timeframe,
clears the active legend selection, and issues no request; the derived
candles are re-aggregated from the unchanged raw items with the new
timeframe and the legend map is rebuilt from them; the next run of the
default-legend effect selects the last candle of the new series. -/
theorem claim_C8 (s : WState) (tf : IntradayTimeframe)
    (h : s.isRefreshing = false) :
    (step s (.selectTimeframe tf)).data = s.data ∧
    (step s (.selectTimeframe tf)).selectedTimeframe = tf ∧
    (step s (.selectTimeframe tf)).legendValues = none ∧
    (step s (.selectTimeframe tf)).requestLog = s.requestLog ∧
    (step s (.selectTimeframe tf)).inFlight = s.inFlight ∧
    (∀ d, s.data = some d → d.items ≠ [] →
        candlesOf (step s (.selectTimeframe tf)) =
          aggregateCandles d.items tf) ∧
    legendMapOf (step s (.selectTimeframe tf)) =
      buildLegendMap (candlesOf (step s (.selectTimeframe tf))) ∧
    (step (step s (.selectTimeframe tf)) .defaultLegendEffect).legendValues =
      ((candlesOf (step s (.selectTimeframe tf))).getLast?).map
        legendOfCandle := by
  have hs' : step s (.selectTimeframe tf) =
      { s with selectedTimeframe := tf, legendValues := none } := by
    simp [step, h]
  rw [hs']
  refine ⟨rfl, rfl, rfl, rfl, rfl, ?_, legendMapOf_eq _, ?_⟩
  · intro d hd hne
    simp [candlesOf, hd, hne]
  · cases hlast :
        (candlesOf { s with selectedTimeframe := tf, legendValues := none }).getLast? with
    | none => simp [step, hlast]
    | some lastC =>
      have hget := legendGet_getLast _
        (candlesOf_strict_times
          { s with selectedTimeframe := tf, legendValues := none })
        lastC hlast
      simp [step, hlast, legendMapOf_eq, hget]

/-- Witness for C8: with loaded example data (not refreshing), switching
to 1m clears the legend selection. -/
theorem claim_C8_witness :
    (run initialWState [WEvent.hostResult (some exData)]).isRefreshing =
        false ∧
      (step (run initialWState [WEvent.hostResult (some exData)])
          (.selectTimeframe .tf1m)).legendValues = none :=
  ⟨rfl,
   (claim_C8 (run initialWState [WEvent.hostResult (some exData)]) .tf1m
     rfl).2.2.1⟩

end RatReducible

end TaseIntraday
